import Mathlib

/-!
Verification of the Civitai media scraper (`src/civitai/server.py`).

The scraper's items are raw JSON objects (Python dicts).  We embed JSON
values as `JVal` and an item as the field list of its top-level object.
Python semantics that matter here are modelled explicitly:
`dict.get` with a default, truthiness (`if not url`), `str()` of an id,
and the fact that adding a non-numeric reaction count raises a
`TypeError` (embedded as `Except.error ()`).
-/

namespace Civitai

/-- JSON values as delivered by the remote API (Python objects after
`response.json()`). -/
inductive JVal where
  | jnull : JVal
  | jbool : Bool → JVal
  | jnum : Int → JVal
  | jstr : String → JVal
  | jarr : List JVal → JVal
  | jobj : List (String × JVal) → JVal

/-- An item from the API: the field list of a JSON object.  Keys are
assumed unique, as in a Python dict. -/
abbrev Item := List (String × JVal)

/-- Lookup of a key in a JSON object's field list (Python `dict.get`,
returning `none` for a missing key). -/
def jget : List (String × JVal) → String → Option JVal
  | [], _ => none
  | (k', v) :: rest, k => if k' = k then some v else jget rest k

/-- Python truthiness of a JSON value: `None`, `False`, `0`, `""` and the
empty list/dict are falsy, everything else truthy. -/
def pyTruthy : JVal → Bool
  | JVal.jnull => false
  | JVal.jbool b => b
  | JVal.jnum n => n != 0
  | JVal.jstr s => s != ""
  | JVal.jarr xs => !xs.isEmpty
  | JVal.jobj fs => !fs.isEmpty

/-- Truthiness of an optional field (`item.get(k)` is `None` when the key
is missing, which is falsy). -/
def truthyOpt : Option JVal → Bool
  | none => false
  | some v => pyTruthy v

/-- Python `str()` of a JSON value, for the cases the scraper meets
(item ids are numbers or strings).  Containers get a placeholder: no
claim evaluates `str` on them. -/
def pyStr : JVal → String
  | JVal.jnull => "None"
  | JVal.jbool true => "True"
  | JVal.jbool false => "False"
  | JVal.jnum n => toString n
  | JVal.jstr s => s
  | JVal.jarr _ => "<list>"
  | JVal.jobj _ => "<dict>"

/-!
Quality filter, `fetch_images` lines 171-180:

    stats = item.get("stats", {})
    total_reactions = (stats.get("likeCount", 0) + stats.get("heartCount", 0)
                       + stats.get("laughCount", 0) + stats.get("cryCount", 0))
    if total_reactions >= min_reactions: ...

`stats.get(key, 0)` defaults only a *missing* key to 0.  A present
non-numeric value makes the `+` (or the final `>=`) raise `TypeError`,
which no enclosing handler catches; we embed that as `Except.error ()`.
Python `bool` is an `int` subtype, so a boolean count sums as 0/1.
-/

/-- One reaction-category count, Python `stats.get(key, 0)` as consumed
by `+`: missing key gives 0, a number gives its value, a bool coerces to
0/1, anything else raises. -/
def getCountE (stats : List (String × JVal)) (k : String) : Except Unit Int :=
  match jget stats k with
  | none => Except.ok 0
  | some (JVal.jnum n) => Except.ok n
  | some (JVal.jbool b) => Except.ok (if b then 1 else 0)
  | some _ => Except.error ()

/-- The item's stats block, Python `item.get("stats", {})` followed by
attribute access `.get` on the result: a missing key gives the empty
dict, a present non-dict value raises (`AttributeError`). -/
def getStatsE (item : Item) : Except Unit (List (String × JVal)) :=
  match jget item "stats" with
  | none => Except.ok []
  | some (JVal.jobj fs) => Except.ok fs
  | some _ => Except.error ()

/-- Total reaction score of an item: the sum of the four fixed
categories, `fetch_images` lines 172-178, raising at the first
malformed operand as Python's left-to-right `+` does. -/
def totalReactionsE (item : Item) : Except Unit Int :=
  match getStatsE item with
  | Except.error e => Except.error e
  | Except.ok stats =>
    match getCountE stats "likeCount" with
    | Except.error e => Except.error e
    | Except.ok a =>
      match getCountE stats "heartCount" with
      | Except.error e => Except.error e
      | Except.ok b =>
        match getCountE stats "laughCount" with
        | Except.error e => Except.error e
        | Except.ok c =>
          match getCountE stats "cryCount" with
          | Except.error e => Except.error e
          | Except.ok d => Except.ok (a + b + c + d)

/-- The quality filter's verdict on one item, `fetch_images` line 180:
`total_reactions >= min_reactions`. -/
def passesE (item : Item) (min_reactions : Int) : Except Unit Bool :=
  match totalReactionsE item with
  | Except.error e => Except.error e
  | Except.ok t => Except.ok (decide (t ≥ min_reactions))

/-!
Media classifier, `_is_video` lines 230-258.
-/

/-- ASCII lowercasing of a string, Python `url.lower()` on the ASCII
URLs the scraper sees. -/
def lowerString (s : String) : String :=
  String.mk (s.toList.map Char.toLower)

/-- Whether `suffix` ends `s`, Python `s.endswith(suffix)`. -/
def strEndsWith (s suffix : String) : Bool :=
  suffix.toList.isSuffixOf s.toList

/-- Whether `p` starts `s`, Python `s.startswith(p)`. -/
def strStartsWith (s p : String) : Bool :=
  p.toList.isPrefixOf s.toList

/-- The known video extensions, `_is_video` line 243. -/
def video_extensions : List String := [".mp4", ".webm", ".mov", ".avi", ".mkv"]

/-- Step 1 of the classifier: the lowercased URL ends with a known video
extension (line 244). -/
def hasVideoExt (url : String) : Bool :=
  video_extensions.any (fun ext => strEndsWith (lowerString url) ext)

/-- Step 2 of the classifier, lines 248-251: `meta = item.get("meta")`;
`if meta and isinstance(meta, dict)` (a non-dict or empty/falsy meta is
skipped), then key membership of "duration" or "fps". -/
def metaVideoHint (item : Item) : Bool :=
  match jget item "meta" with
  | some (JVal.jobj fields) =>
    if fields.isEmpty then false
    else (jget fields "duration").isSome || (jget fields "fps").isSome
  | _ => false

/-- Split a character list at a separator, Python `s.split(sep)` for a
one-character separator (every occurrence opens a new group; groups may
be empty). -/
def splitChar (sep : Char) (cs : List Char) : List (List Char) :=
  cs.foldr
    (fun ch acc =>
      match acc with
      | [] => [[ch]]
      | g :: gs => if ch = sep then [] :: g :: gs else (ch :: g) :: gs)
    [[]]

/-- The last path component of a URL (what `pathlib` calls the name). -/
def pathName (url : String) : List Char :=
  (splitChar '/' url.toList).getLastD url.toList

/-- Index of the last '.' in a character list, if any. -/
def lastDotIdx (cs : List Char) : Option Nat :=
  (List.range cs.length).foldl
    (fun acc i => if cs.get? i = some '.' then some i else acc) none

/-- Python `Path(url).suffix`: the substring of the final path component
from its last dot, empty when there is no dot, the dot is leading, or
the dot is last. -/
def pathSuffix (url : String) : String :=
  let cs := pathName url
  match lastDotIdx cs with
  | some i => if 0 < i ∧ i + 1 < cs.length then String.mk (cs.drop i) else ""
  | none => ""

/-- Extension-to-MIME table: the rows of Python's `mimetypes` default map
that matter for this repository (video types plus the common image
types the scraper meets). -/
def mimeTable : List (String × String) :=
  [(".mp4", "video/mp4"), (".mpeg", "video/mpeg"), (".mpg", "video/mpeg"),
   (".mov", "video/quicktime"), (".avi", "video/x-msvideo"),
   (".webm", "video/webm"), (".jpg", "image/jpeg"), (".jpeg", "image/jpeg"),
   (".png", "image/png"), (".gif", "image/gif"), (".webp", "image/webp"),
   (".json", "application/json"), (".html", "text/html")]

/-- Python `mimetypes.guess_type(url)[0]`: look up the lowercased
extension of the URL's final component in the type map. -/
def mimeGuess (url : String) : Option String :=
  match (mimeTable.filter (fun row => row.1 = lowerString (pathSuffix url))) with
  | [] => none
  | row :: _ => some row.2

/-- Step 3 of the classifier, lines 254-256: the guessed MIME type
exists and starts with "video/". -/
def mimeIsVideo (url : String) : Bool :=
  match mimeGuess url with
  | some m => strStartsWith m "video/"
  | none => false

/-- The classifier `_is_video`, lines 230-258: extension first, then the
metadata duration/fps hint, then MIME sniffing, else image. -/
def is_video (url : String) (item : Item) : Bool :=
  if hasVideoExt url then true
  else if metaVideoHint item then true
  else if mimeIsVideo url then true
  else false

/-- The two media kinds (spec's `MediaKind`). -/
inductive MediaKind where
  | image : MediaKind
  | video : MediaKind
  deriving DecidableEq

/-- Classification as a total function into `MediaKind`. -/
def classify (url : String) (item : Item) : MediaKind :=
  if is_video url item then MediaKind.video else MediaKind.image

/-!
Pagination fetcher, `fetch_images` lines 120-228.

One page of the remote feed is either a transport error (the
`requests.exceptions.RequestException` branch, line 219) or a JSON body
with an item list and pagination metadata.  `hasNext` stands for the
truthiness of `metadata.get("nextCursor") or metadata.get("nextPage")`
(lines 209-212).  The `while request_count < max_requests` loop is
embedded with fuel `maxRequests - request_count`, starting at
`max_requests`.
-/

/-- One page of the feed. -/
structure Page where
  items : List Item
  hasNext : Bool

/-- Result of requesting one page. -/
inductive PageResult where
  | ok : Page → PageResult
  | err : PageResult

/-- Why the fetch loop stopped (spec section 4.3 vocabulary). -/
inductive StopReason where
  | transportError : StopReason
  | targetReached : StopReason
  | lowYield : StopReason
  | exhausted : StopReason
  | pageCeiling : StopReason
  deriving DecidableEq

/-- Mutable locals of `fetch_images`: `all_items`, `request_count`,
`consecutive_low_votes`, plus the error counter it bumps on a transport
failure (`self.stats["errors"]`, line 221). -/
structure FetchSt where
  all_items : List Item
  request_count : Nat
  consecutive_low_votes : Nat
  fetchErrors : Nat

/-- The initial fetch state (lines 132-135). -/
def initFetchSt : FetchSt := ⟨[], 0, 0, 0⟩

/-- The page filter, lines 171-182: keep the items whose reaction total
meets `min_reactions`, propagating the `TypeError` of a malformed item.
Items are scored in page order, so the first malformed item raises. -/
def filterItemsE (min_reactions : Int) : List Item → Except Unit (List Item)
  | [] => Except.ok []
  | it :: rest =>
    match totalReactionsE it with
    | Except.error e => Except.error e
    | Except.ok t =>
      match filterItemsE min_reactions rest with
      | Except.error e => Except.error e
      | Except.ok tail =>
        Except.ok (if t ≥ min_reactions then it :: tail else tail)

/-- What one loop iteration decides: continue with a new state, or stop
with a reason. -/
inductive FetchCtl where
  | next : FetchSt → FetchCtl
  | stop : FetchSt → StopReason → FetchCtl

/-- The state carried by a `FetchCtl`. -/
def ctlState : FetchCtl → FetchSt
  | FetchCtl.next s => s
  | FetchCtl.stop s _ => s

/-- One iteration of the `fetch_images` loop body on a fetched page,
lines 151-224.  On success: count the request, append the passing items,
update `consecutive_low_votes` (the page is low-yield when
`items_meeting_criteria < len(items) * 0.1`; for page sizes below 2^50
the float comparison equals the exact `10 * passing < len(items)`), then
in order: target reached → stop, 5 consecutive low-yield pages → stop,
no next cursor/page → stop, else continue.  On a transport error: bump
the error counter and stop.  The state after a successful page —
request counted, passing items appended, `consecutive_low_votes`
updated — is `pageAdvance`. -/
def pageAdvance (s : FetchSt) (page : Page) (passing : List Item) : FetchSt :=
  { all_items := s.all_items ++ passing,
    request_count := s.request_count + 1,
    consecutive_low_votes :=
      if 10 * passing.length < page.items.length
      then s.consecutive_low_votes + 1 else 0,
    fetchErrors := s.fetchErrors }

/-- One iteration of the `fetch_images` loop body, lines 151-224. -/
def fetchStep (min_reactions : Int) (targetTotal : Nat) (pr : PageResult)
    (s : FetchSt) : Except Unit FetchCtl :=
  match pr with
  | PageResult.err =>
    Except.ok (FetchCtl.stop { s with fetchErrors := s.fetchErrors + 1 }
      StopReason.transportError)
  | PageResult.ok page =>
    match filterItemsE min_reactions page.items with
    | Except.error e => Except.error e
    | Except.ok passing =>
      let s' : FetchSt := pageAdvance s page passing
      if s'.all_items.length ≥ targetTotal then
        Except.ok (FetchCtl.stop s' StopReason.targetReached)
      else if s'.consecutive_low_votes ≥ 5 then
        Except.ok (FetchCtl.stop s' StopReason.lowYield)
      else if page.hasNext then Except.ok (FetchCtl.next s')
      else Except.ok (FetchCtl.stop s' StopReason.exhausted)

/-- The `while request_count < max_requests` loop of `fetch_images`,
driven by the remaining-request fuel; running out of fuel is the
page-ceiling exit at line 140. -/
def fetchLoop (min_reactions : Int) (targetTotal : Nat)
    (feed : Nat → PageResult) : Nat → FetchSt → Except Unit (FetchSt × StopReason)
  | 0, s => Except.ok (s, StopReason.pageCeiling)
  | fuel + 1, s =>
    match fetchStep min_reactions targetTotal (feed s.request_count) s with
    | Except.error e => Except.error e
    | Except.ok (FetchCtl.stop s' r) => Except.ok (s', r)
    | Except.ok (FetchCtl.next s') => fetchLoop min_reactions targetTotal feed fuel s'

/-- The whole of `fetch_images`: run the loop from the initial state with
`max_requests` fuel over the feed. -/
def fetch_images (min_reactions : Int) (targetTotal : Nat) (maxRequests : Nat)
    (feed : Nat → PageResult) : Except Unit (FetchSt × StopReason) :=
  fetchLoop min_reactions targetTotal feed maxRequests initFetchSt

/-!
Download manager, `download_media` lines 260-342, and the run loop,
`run` lines 382-416.

External effects are instrumented as an `Event` trace, and the outcomes
the process cannot control are passed in as oracles: per item, whether
the byte transfer succeeds (`netOk`, the `response.raise_for_status()`
path) and whether the metadata side-file serializes (`metaOk`, the
`json.dump` guarded by `except (TypeError, ValueError)`); per
checkpoint, whether the unguarded `_save_downloaded_ids`/`_save_config`
pair succeeds (`ckOk`) — when it does not, the exception propagates out
of `run` and the loop result carries `crashed = true`.
-/

/-- The run-visible counters, `self.stats` (lines 79-85). -/
structure Stats where
  images_downloaded : Nat
  videos_downloaded : Nat
  images_skipped : Nat
  videos_skipped : Nat
  errors : Nat
  deriving DecidableEq

/-- The all-zero counters. -/
def initStats : Stats := ⟨0, 0, 0, 0, 0⟩

/-- The scraper's mutable state during the download phase: the dedup
ledger `self.downloaded_ids` and the counters. -/
structure ScraperState where
  downloaded_ids : List String
  stats : Stats
  deriving DecidableEq

/-- Observable side effects of the download phase, in program order. -/
inductive Event where
  | dedupChecked : String → Event
  | bytesRequested : String → Event
  | fileWritten : MediaKind → String → Event
  | metaWritten : String → Event
  | ledgerAdded : String → Event
  | checkpointSaved : Nat → Event
  deriving DecidableEq

/-- Bump the downloaded counter of one kind (lines 323-326). -/
def bumpDownloaded (st : Stats) : MediaKind → Stats
  | MediaKind.video => { st with videos_downloaded := st.videos_downloaded + 1 }
  | MediaKind.image => { st with images_downloaded := st.images_downloaded + 1 }

/-- Bump the error counter (lines 337 and 341). -/
def bumpErrors (st : Stats) : Stats := { st with errors := st.errors + 1 }

/-- The file name `download_media` resolves, lines 293-300: the URL's
suffix or a kind default, prefixed with "civitai_" and the id, under the
kind directory. -/
def mediaPath (isVid : Bool) (idStr url : String) : String :=
  let ext0 := pathSuffix url
  let ext := if ext0 = "" then (if isVid then ".mp4" else ".jpeg") else ext0
  (if isVid then "videos/" else "images/") ++ "civitai_" ++ idStr ++ ext

/-- One call of `download_media`, lines 260-342: reject an item with a
falsy id or url (no state change), return early on a ledger hit, then
classify, transfer the bytes (a transport failure bumps the error
counter and returns), best-effort write the metadata side-file, add the
id to the ledger and bump the kind's counter.  A truthy non-string url
reaches `url.lower()` inside the `try` and lands in the broad
`except Exception` handler, bumping the error counter. -/
def download_media (st : ScraperState) (item : Item) (netOk metaOk : Bool) :
    ScraperState × List Event × Option String :=
  let idv := jget item "id"
  let urlv := jget item "url"
  if !truthyOpt urlv || !truthyOpt idv then (st, [], none)
  else
    let idStr := pyStr ((idv).getD JVal.jnull)
    if idStr ∈ st.downloaded_ids then (st, [Event.dedupChecked idStr], none)
    else
      match urlv with
      | some (JVal.jstr url) =>
        let isVid := is_video url item
        let kind := if isVid then MediaKind.video else MediaKind.image
        let fpath := mediaPath isVid idStr url
        if netOk then
          let evs := [Event.dedupChecked idStr, Event.bytesRequested url,
              Event.fileWritten kind fpath] ++
            (if metaOk then [Event.metaWritten idStr] else []) ++
            [Event.ledgerAdded idStr]
          ({ downloaded_ids := idStr :: st.downloaded_ids,
             stats := bumpDownloaded st.stats kind }, evs, some fpath)
        else
          ({ st with stats := bumpErrors st.stats },
           [Event.dedupChecked idStr, Event.bytesRequested url], none)
      | _ =>
        ({ st with stats := bumpErrors st.stats },
         [Event.dedupChecked idStr], none)

/-- The url `run` classifies with at line 390, `item.get("url", "")`:
the empty string when the field is missing, the string itself when it is
one, and `none` when a non-string is present — `url.lower()` then raises
an uncaught `AttributeError` and the run dies. -/
def urlForClassify (item : Item) : Option String :=
  match jget item "url" with
  | none => some ""
  | some (JVal.jstr s) => some s
  | some _ => none

/-- Whether the run loop's line-390 classification calls an item a
video: `self._is_video(item.get("url", ""), item)`. -/
def classifiesVideo (item : Item) : Bool :=
  match urlForClassify item with
  | some u => is_video u item
  | none => false

/-- One download-phase work item: the item plus its transfer and
metadata-serialization oracles. -/
structure Entry where
  item : Item
  netOk : Bool
  metaOk : Bool

/-- The download loop of `run`, lines 382-413, over the fetched items
with 1-based index `idx`.  Per iteration: break when both targets are
met; classify; `continue` past a quota-met kind after bumping its skip
counter (skipping the checkpoint block); otherwise call
`download_media` and then, when `idx % 50 == 0`, persist the ledger and
summary — a persistence failure propagates (crash), abandoning the rest.
The result is the final state, the event trace, and the crash flag. -/
def runLoop (target_images target_videos : Nat) (ckOk : Nat → Bool) :
    ScraperState → Nat → List Entry → ScraperState × List Event × Bool
  | st, _, [] => (st, [], false)
  | st, idx, e :: rest =>
    if st.stats.images_downloaded ≥ target_images ∧
        st.stats.videos_downloaded ≥ target_videos then
      (st, [], false)
    else
      match urlForClassify e.item with
      | none => (st, [], true)
      | some u =>
        let isVid := is_video u e.item
        if isVid ∧ st.stats.videos_downloaded ≥ target_videos then
          runLoop target_images target_videos ckOk
            { st with stats :=
                { st.stats with videos_skipped := st.stats.videos_skipped + 1 } }
            (idx + 1) rest
        else if ¬isVid ∧ st.stats.images_downloaded ≥ target_images then
          runLoop target_images target_videos ckOk
            { st with stats :=
                { st.stats with images_skipped := st.stats.images_skipped + 1 } }
            (idx + 1) rest
        else
          let dm := download_media st e.item e.netOk e.metaOk
          if idx % 50 = 0 then
            if ckOk idx then
              let r := runLoop target_images target_videos ckOk dm.1 (idx + 1) rest
              (r.1, dm.2.1 ++ [Event.checkpointSaved idx] ++ r.2.1, r.2.2)
            else (dm.1, dm.2.1, true)
          else
            let r := runLoop target_images target_videos ckOk dm.1 (idx + 1) rest
            (r.1, dm.2.1 ++ r.2.1, r.2.2)

/-- The download phase of `run` as entered at line 382: the loop over
the fetched entries, starting from the loaded ledger, zero counters and
index 1. -/
def runDownloads (target_images target_videos : Nat) (ckOk : Nat → Bool)
    (ledger : List String) (entries : List Entry) :
    ScraperState × List Event × Bool :=
  runLoop target_images target_videos ckOk ⟨ledger, initStats⟩ 1 entries

/-!
Theorems for the claims, in claim order.
-/

/-- Claim C1, counterexample to the claim as stated: the claim says a
malformed reaction count is treated as zero and the filter has no
failure mode, so this item (whose `likeCount` is the string "200")
would have total 0 and pass at threshold 0; instead the code raises a
`TypeError` when it adds the string to an integer. -/
theorem C1_counterexample :
    passesE [("stats", JVal.jobj [("likeCount", JVal.jstr "200")])] 0 =
      Except.error () := rfl

/-- Claim C1 as amended: for an item whose stats block resolves and
whose four fixed reaction counts each resolve to an integer (missing
counts resolve to zero), the filter passes exactly when their sum
reaches the minimum score; in particular a total of exactly `m` passes
and a threshold one above the total fails.  A present non-numeric count
raises an error instead of defaulting to zero. -/
theorem C1_amended_quality_filter (item : Item) (stats : List (String × JVal))
    (a b c d m : Int)
    (hs : getStatsE item = Except.ok stats)
    (ha : getCountE stats "likeCount" = Except.ok a)
    (hb : getCountE stats "heartCount" = Except.ok b)
    (hc : getCountE stats "laughCount" = Except.ok c)
    (hd : getCountE stats "cryCount" = Except.ok d) :
    passesE item m = Except.ok (decide (a + b + c + d ≥ m)) ∧
    passesE item (a + b + c + d) = Except.ok true ∧
    passesE item (a + b + c + d + 1) = Except.ok false := by
  have ht : totalReactionsE item = Except.ok (a + b + c + d) := by
    simp [totalReactionsE, hs, ha, hb, hc, hd]
  refine ⟨by simp [passesE, ht], ?_, ?_⟩
  · simp [passesE, ht]
  · simp [passesE, ht]

/-- Witness for C1: an item with likeCount 150 and heartCount 60 against
threshold 200. -/
theorem C1_witness :
    passesE [("stats", JVal.jobj [("likeCount", JVal.jnum 150),
        ("heartCount", JVal.jnum 60)])] 200 =
      Except.ok (decide ((150 : Int) + 60 + 0 + 0 ≥ 200)) ∧
    passesE [("stats", JVal.jobj [("likeCount", JVal.jnum 150),
        ("heartCount", JVal.jnum 60)])] ((150 : Int) + 60 + 0 + 0) =
      Except.ok true ∧
    passesE [("stats", JVal.jobj [("likeCount", JVal.jnum 150),
        ("heartCount", JVal.jnum 60)])] ((150 : Int) + 60 + 0 + 0 + 1) =
      Except.ok false :=
  C1_amended_quality_filter _ _ 150 60 0 0 200 rfl rfl rfl rfl rfl

/-- Claim C2: media classification is deterministic and total — every
(url, item) pair maps to exactly one of image or video — and is decided
in the fixed priority order of `_is_video`: a known video extension
wins outright (so a URL whose lowercase form ends in ".mp4" is always a
video, whatever the metadata says), otherwise a duration/fps metadata
hint wins, otherwise the inferred MIME type decides, otherwise image. -/
theorem C2_media_classifier :
    (∀ url item, classify url item = MediaKind.image ∨
      classify url item = MediaKind.video) ∧
    (∀ url item, strEndsWith (lowerString url) ".mp4" = true →
      classify url item = MediaKind.video) ∧
    (∀ url item, hasVideoExt url = true → classify url item = MediaKind.video) ∧
    (∀ url item, hasVideoExt url = false → metaVideoHint item = true →
      classify url item = MediaKind.video) ∧
    (∀ url item, hasVideoExt url = false → metaVideoHint item = false →
      classify url item =
        (if mimeIsVideo url then MediaKind.video else MediaKind.image)) := by
  refine ⟨?_, ?_, ?_, ?_, ?_⟩
  · intro url item
    by_cases h : is_video url item <;> simp [classify, h]
  · intro url item h
    have hx : hasVideoExt url = true := by
      simp [hasVideoExt, video_extensions]
      exact Or.inl h
    simp [classify, is_video, hx]
  · intro url item h
    simp [classify, is_video, h]
  · intro url item h1 h2
    simp [classify, is_video, h1, h2]
  · intro url item h1 h2
    by_cases h3 : mimeIsVideo url <;> simp [classify, is_video, h1, h2, h3]

/-- Unfolding of one iteration of the `fetch_images` loop, with the page
index of the request named explicitly. -/
theorem fetchLoop_succ (minR : Int) (t : Nat) (feed : Nat → PageResult)
    (fuel : Nat) (s : FetchSt) (k : Nat) (hk : s.request_count = k) :
    fetchLoop minR t feed (fuel + 1) s =
      match fetchStep minR t (feed k) s with
      | Except.error e => Except.error e
      | Except.ok (FetchCtl.stop s' r) => Except.ok (s', r)
      | Except.ok (FetchCtl.next s') => fetchLoop minR t feed fuel s' := by
  subst hk
  rfl

/-- A continuing step unfolds the loop once. -/
theorem fetchLoop_next (minR : Int) (t : Nat) (feed : Nat → PageResult)
    (fuel : Nat) (s : FetchSt) (k : Nat) (s' : FetchSt)
    (hk : s.request_count = k)
    (h : fetchStep minR t (feed k) s = Except.ok (FetchCtl.next s')) :
    fetchLoop minR t feed (fuel + 1) s = fetchLoop minR t feed fuel s' := by
  rw [fetchLoop_succ minR t feed fuel s k hk, h]

/-- A stopping step ends the loop with its reason. -/
theorem fetchLoop_stop (minR : Int) (t : Nat) (feed : Nat → PageResult)
    (fuel : Nat) (s : FetchSt) (k : Nat) (s' : FetchSt) (r : StopReason)
    (hk : s.request_count = k)
    (h : fetchStep minR t (feed k) s = Except.ok (FetchCtl.stop s' r)) :
    fetchLoop minR t feed (fuel + 1) s = Except.ok (s', r) := by
  rw [fetchLoop_succ minR t feed fuel s k hk, h]

/-- The step on a page whose filter succeeds, before resolving the stop
conditions. -/
theorem fetchStep_filtered (minR : Int) (t : Nat) (page : Page) (s : FetchSt)
    (passing : List Item)
    (h : filterItemsE minR page.items = Except.ok passing) :
    fetchStep minR t (PageResult.ok page) s =
      (let s' := pageAdvance s page passing
       if s'.all_items.length ≥ t then
         Except.ok (FetchCtl.stop s' StopReason.targetReached)
       else if s'.consecutive_low_votes ≥ 5 then
         Except.ok (FetchCtl.stop s' StopReason.lowYield)
       else if page.hasNext then Except.ok (FetchCtl.next s')
       else Except.ok (FetchCtl.stop s' StopReason.exhausted)) := by
  simp [fetchStep, h]

/-- A page that neither reaches the target, nor completes five
consecutive low-yield pages, nor exhausts the cursor, continues the
loop. -/
theorem fetchStep_continue (minR : Int) (t : Nat) (page : Page) (s : FetchSt)
    (passing : List Item)
    (h : filterItemsE minR page.items = Except.ok passing)
    (hlen : (pageAdvance s page passing).all_items.length < t)
    (hcons : (pageAdvance s page passing).consecutive_low_votes < 5)
    (hnext : page.hasNext = true) :
    fetchStep minR t (PageResult.ok page) s =
      Except.ok (FetchCtl.next (pageAdvance s page passing)) := by
  rw [fetchStep_filtered minR t page s passing h]
  simp [Nat.not_le.mpr hlen, Nat.not_le.mpr hcons, hnext]

/-- A page that brings the accumulated qualifying items to the combined
target stops the loop with `targetReached`. -/
theorem fetchStep_target (minR : Int) (t : Nat) (page : Page) (s : FetchSt)
    (passing : List Item)
    (h : filterItemsE minR page.items = Except.ok passing)
    (hlen : t ≤ (pageAdvance s page passing).all_items.length) :
    fetchStep minR t (PageResult.ok page) s =
      Except.ok (FetchCtl.stop (pageAdvance s page passing)
        StopReason.targetReached) := by
  rw [fetchStep_filtered minR t page s passing h]
  simp [hlen]

/-- A page that is below the target but completes five consecutive
low-yield pages stops the loop with `lowYield`. -/
theorem fetchStep_lowYield (minR : Int) (t : Nat) (page : Page) (s : FetchSt)
    (passing : List Item)
    (h : filterItemsE minR page.items = Except.ok passing)
    (hlen : (pageAdvance s page passing).all_items.length < t)
    (hcons : 5 ≤ (pageAdvance s page passing).consecutive_low_votes) :
    fetchStep minR t (PageResult.ok page) s =
      Except.ok (FetchCtl.stop (pageAdvance s page passing)
        StopReason.lowYield) := by
  rw [fetchStep_filtered minR t page s passing h]
  simp [Nat.not_le.mpr hlen, hcons]

/-- Witness for C2: a URL ending in ".mp4" is a video even though the
item's metadata block has no duration or fps hint. -/
theorem C2_witness :
    classify "http://host/a.mp4"
      [("meta", JVal.jobj [("prompt", JVal.jstr "x")])] = MediaKind.video :=
  C2_media_classifier.2.1 "http://host/a.mp4"
    [("meta", JVal.jobj [("prompt", JVal.jstr "x")])] (by decide)

/-- Claim C5: the fetcher counts consecutive pages whose pass ratio is
below 10% (a low-yield page increments the counter, any other page
resets it to zero), and a feed whose first five pages are all low-yield
— while the accumulated qualifying items stay below the combined target
and further pages remain available — stops with `lowYield` after
exactly five requests. -/
theorem C5_low_yield_stop (minR : Int) (target : Nat) (feed : Nat → PageResult)
    (n : Nat) (p1 p2 p3 p4 p5 : Page) (l1 l2 l3 l4 l5 : List Item)
    (hf0 : feed 0 = PageResult.ok p1) (hf1 : feed 1 = PageResult.ok p2)
    (hf2 : feed 2 = PageResult.ok p3) (hf3 : feed 3 = PageResult.ok p4)
    (hf4 : feed 4 = PageResult.ok p5)
    (h1 : filterItemsE minR p1.items = Except.ok l1)
    (h2 : filterItemsE minR p2.items = Except.ok l2)
    (h3 : filterItemsE minR p3.items = Except.ok l3)
    (h4 : filterItemsE minR p4.items = Except.ok l4)
    (h5 : filterItemsE minR p5.items = Except.ok l5)
    (lo1 : 10 * l1.length < p1.items.length)
    (lo2 : 10 * l2.length < p2.items.length)
    (lo3 : 10 * l3.length < p3.items.length)
    (lo4 : 10 * l4.length < p4.items.length)
    (lo5 : 10 * l5.length < p5.items.length)
    (hn1 : p1.hasNext = true) (hn2 : p2.hasNext = true)
    (hn3 : p3.hasNext = true) (hn4 : p4.hasNext = true)
    (ht : l1.length + l2.length + l3.length + l4.length + l5.length < target) :
    (∀ s page l, filterItemsE minR page.items = Except.ok l →
      10 * l.length < page.items.length →
      ∃ out, fetchStep minR target (PageResult.ok page) s = Except.ok out ∧
        (ctlState out).consecutive_low_votes = s.consecutive_low_votes + 1) ∧
    (∀ s page l, filterItemsE minR page.items = Except.ok l →
      ¬ 10 * l.length < page.items.length →
      ∃ out, fetchStep minR target (PageResult.ok page) s = Except.ok out ∧
        (ctlState out).consecutive_low_votes = 0) ∧
    ∃ s', fetch_images minR target (n + 5) feed =
        Except.ok (s', StopReason.lowYield) ∧ s'.request_count = 5 ∧
        s'.consecutive_low_votes = 5 := by
  refine ⟨?_, ?_, ?_⟩
  · intro s page l hl hlow
    rw [fetchStep_filtered minR target page s l hl]
    have hc : (pageAdvance s page l).consecutive_low_votes =
        s.consecutive_low_votes + 1 := by
      simp [pageAdvance, hlow]
    by_cases hA : (pageAdvance s page l).all_items.length ≥ target
    · exact ⟨FetchCtl.stop (pageAdvance s page l) StopReason.targetReached,
        by simp [hA], hc⟩
    · by_cases hB : (pageAdvance s page l).consecutive_low_votes ≥ 5
      · exact ⟨FetchCtl.stop (pageAdvance s page l) StopReason.lowYield,
          by simp [hA, hB], hc⟩
      · cases hN : page.hasNext
        · exact ⟨FetchCtl.stop (pageAdvance s page l) StopReason.exhausted,
            by simp [hA, hB, hN], hc⟩
        · exact ⟨FetchCtl.next (pageAdvance s page l),
            by simp [hA, hB, hN], hc⟩
  · intro s page l hl hlow
    rw [fetchStep_filtered minR target page s l hl]
    have hc : (pageAdvance s page l).consecutive_low_votes = 0 := by
      simp [pageAdvance, hlow]
    by_cases hA : (pageAdvance s page l).all_items.length ≥ target
    · exact ⟨FetchCtl.stop (pageAdvance s page l) StopReason.targetReached,
        by simp [hA], hc⟩
    · by_cases hB : (pageAdvance s page l).consecutive_low_votes ≥ 5
      · exact ⟨FetchCtl.stop (pageAdvance s page l) StopReason.lowYield,
          by simp [hA, hB], hc⟩
      · cases hN : page.hasNext
        · exact ⟨FetchCtl.stop (pageAdvance s page l) StopReason.exhausted,
            by simp [hA, hB, hN], hc⟩
        · exact ⟨FetchCtl.next (pageAdvance s page l),
            by simp [hA, hB, hN], hc⟩
  · set s0 := initFetchSt with hs0
    set s1 := pageAdvance s0 p1 l1 with hs1
    set s2 := pageAdvance s1 p2 l2 with hs2
    set s3 := pageAdvance s2 p3 l3 with hs3
    set s4 := pageAdvance s3 p4 l4 with hs4
    set s5 := pageAdvance s4 p5 l5 with hs5
    have a0 : s0.all_items = [] := rfl
    have a1 : s1.all_items.length = l1.length := by
      simp [hs1, pageAdvance, a0]
    have a2 : s2.all_items.length = l1.length + l2.length := by
      simp [hs2, pageAdvance, a1]
    have a3 : s3.all_items.length = l1.length + l2.length + l3.length := by
      simp [hs3, pageAdvance, a2]
    have a4 : s4.all_items.length =
        l1.length + l2.length + l3.length + l4.length := by
      simp [hs4, pageAdvance, a3]
    have a5 : s5.all_items.length =
        l1.length + l2.length + l3.length + l4.length + l5.length := by
      simp [hs5, pageAdvance, a4]
    have c1 : s1.consecutive_low_votes = 1 := by
      simp [hs1, pageAdvance, lo1, hs0, initFetchSt]
    have c2 : s2.consecutive_low_votes = 2 := by
      simp [hs2, pageAdvance, lo2, c1]
    have c3 : s3.consecutive_low_votes = 3 := by
      simp [hs3, pageAdvance, lo3, c2]
    have c4 : s4.consecutive_low_votes = 4 := by
      simp [hs4, pageAdvance, lo4, c3]
    have c5 : s5.consecutive_low_votes = 5 := by
      simp [hs5, pageAdvance, lo5, c4]
    have r0 : s0.request_count = 0 := rfl
    have r1 : s1.request_count = 1 := by simp [hs1, pageAdvance, r0]
    have r2 : s2.request_count = 2 := by simp [hs2, pageAdvance, r1]
    have r3 : s3.request_count = 3 := by simp [hs3, pageAdvance, r2]
    have r4 : s4.request_count = 4 := by simp [hs4, pageAdvance, r3]
    have r5 : s5.request_count = 5 := by simp [hs5, pageAdvance, r4]
    have e1 : fetchStep minR target (PageResult.ok p1) s0 =
        Except.ok (FetchCtl.next s1) := by
      refine fetchStep_continue minR target p1 s0 l1 h1 ?_ ?_ hn1
      · rw [← hs1, a1]; omega
      · rw [← hs1, c1]; omega
    have e2 : fetchStep minR target (PageResult.ok p2) s1 =
        Except.ok (FetchCtl.next s2) := by
      refine fetchStep_continue minR target p2 s1 l2 h2 ?_ ?_ hn2
      · rw [← hs2, a2]; omega
      · rw [← hs2, c2]; omega
    have e3 : fetchStep minR target (PageResult.ok p3) s2 =
        Except.ok (FetchCtl.next s3) := by
      refine fetchStep_continue minR target p3 s2 l3 h3 ?_ ?_ hn3
      · rw [← hs3, a3]; omega
      · rw [← hs3, c3]; omega
    have e4 : fetchStep minR target (PageResult.ok p4) s3 =
        Except.ok (FetchCtl.next s4) := by
      refine fetchStep_continue minR target p4 s3 l4 h4 ?_ ?_ hn4
      · rw [← hs4, a4]; omega
      · rw [← hs4, c4]; omega
    have e5 : fetchStep minR target (PageResult.ok p5) s4 =
        Except.ok (FetchCtl.stop s5 StopReason.lowYield) := by
      refine fetchStep_lowYield minR target p5 s4 l5 h5 ?_ ?_
      · rw [← hs5, a5]; omega
      · rw [← hs5, c5]
    refine ⟨s5, ?_, r5, c5⟩
    unfold fetch_images
    rw [show n + 5 = n + 4 + 1 from rfl,
      fetchLoop_next minR target feed (n + 4) s0 0 s1 r0 (by rw [hf0]; exact e1)]
    rw [show n + 4 = n + 3 + 1 from rfl,
      fetchLoop_next minR target feed (n + 3) s1 1 s2 r1 (by rw [hf1]; exact e2)]
    rw [show n + 3 = n + 2 + 1 from rfl,
      fetchLoop_next minR target feed (n + 2) s2 2 s3 r2 (by rw [hf2]; exact e3)]
    rw [show n + 2 = n + 1 + 1 from rfl,
      fetchLoop_next minR target feed (n + 1) s3 3 s4 r3 (by rw [hf3]; exact e4)]
    exact fetchLoop_stop minR target feed n s4 4 s5 StopReason.lowYield r4
      (by rw [hf4]; exact e5)

/-- Witness for C5: a feed of identical pages of ten unqualifying items
each, threshold 10, target 100, ceiling 50, stops with `lowYield` after
exactly five requests. -/
theorem C5_witness :
    ∃ s', fetch_images 10 100 (45 + 5)
        (fun _ => PageResult.ok ⟨List.replicate 10 [], true⟩) =
      Except.ok (s', StopReason.lowYield) ∧ s'.request_count = 5 ∧
      s'.consecutive_low_votes = 5 :=
  (C5_low_yield_stop 10 100 (fun _ => PageResult.ok ⟨List.replicate 10 [], true⟩)
    45 ⟨List.replicate 10 [], true⟩ ⟨List.replicate 10 [], true⟩
    ⟨List.replicate 10 [], true⟩ ⟨List.replicate 10 [], true⟩
    ⟨List.replicate 10 [], true⟩ [] [] [] [] []
    rfl rfl rfl rfl rfl rfl rfl rfl rfl rfl
    (by decide) (by decide) (by decide) (by decide) (by decide)
    rfl rfl rfl rfl (by decide)).2.2

/-- Claim C6: a page that brings the accumulated qualifying items to at
least the combined image-plus-video target stops the fetcher immediately
with `targetReached`, and a feed reaching the combined target on page 3
of a 50-page ceiling makes exactly 3 requests. -/
theorem C6_target_stop (minR : Int) (target : Nat) (feed : Nat → PageResult)
    (p1 p2 p3 : Page) (l1 l2 l3 : List Item)
    (hf0 : feed 0 = PageResult.ok p1) (hf1 : feed 1 = PageResult.ok p2)
    (hf2 : feed 2 = PageResult.ok p3)
    (h1 : filterItemsE minR p1.items = Except.ok l1)
    (h2 : filterItemsE minR p2.items = Except.ok l2)
    (h3 : filterItemsE minR p3.items = Except.ok l3)
    (hn1 : p1.hasNext = true) (hn2 : p2.hasNext = true)
    (t1 : l1.length < target) (t2 : l1.length + l2.length < target)
    (t3 : target ≤ l1.length + l2.length + l3.length) :
    (∀ s page l, filterItemsE minR page.items = Except.ok l →
      target ≤ s.all_items.length + l.length →
      fetchStep minR target (PageResult.ok page) s =
        Except.ok (FetchCtl.stop (pageAdvance s page l)
          StopReason.targetReached) ∧
      (pageAdvance s page l).request_count = s.request_count + 1) ∧
    ∃ s', fetch_images minR target 50 feed =
        Except.ok (s', StopReason.targetReached) ∧ s'.request_count = 3 ∧
        s'.all_items = (l1 ++ l2) ++ l3 := by
  have cons_le : ∀ (s : FetchSt) (page : Page) (l : List Item),
      (pageAdvance s page l).consecutive_low_votes ≤
        s.consecutive_low_votes + 1 := by
    intro s page l
    simp only [pageAdvance]
    split <;> omega
  constructor
  · intro s page l hl hlen
    have hlen' : target ≤ (pageAdvance s page l).all_items.length := by
      simpa [pageAdvance] using hlen
    exact ⟨fetchStep_target minR target page s l hl hlen', by simp [pageAdvance]⟩
  · set s0 := initFetchSt with hs0
    set s1 := pageAdvance s0 p1 l1 with hs1
    set s2 := pageAdvance s1 p2 l2 with hs2
    set s3 := pageAdvance s2 p3 l3 with hs3
    have a1 : s1.all_items = l1 := by simp [hs1, pageAdvance, hs0, initFetchSt]
    have a2 : s2.all_items = l1 ++ l2 := by simp [hs2, pageAdvance, a1]
    have a3 : s3.all_items = (l1 ++ l2) ++ l3 := by simp [hs3, pageAdvance, a2]
    have c0 : s0.consecutive_low_votes = 0 := rfl
    have c1 : s1.consecutive_low_votes ≤ 1 := by
      have := cons_le s0 p1 l1
      rw [← hs1, c0] at this
      exact this
    have c2 : s2.consecutive_low_votes ≤ 2 := by
      have := cons_le s1 p2 l2
      rw [← hs2] at this
      omega
    have r0 : s0.request_count = 0 := rfl
    have r1 : s1.request_count = 1 := by simp [hs1, pageAdvance, r0]
    have r2 : s2.request_count = 2 := by simp [hs2, pageAdvance, r1]
    have r3 : s3.request_count = 3 := by simp [hs3, pageAdvance, r2]
    have e1 : fetchStep minR target (PageResult.ok p1) s0 =
        Except.ok (FetchCtl.next s1) := by
      refine fetchStep_continue minR target p1 s0 l1 h1 ?_ ?_ hn1
      · rw [← hs1]
        have : s1.all_items.length = l1.length := by rw [a1]
        omega
      · rw [← hs1]; omega
    have e2 : fetchStep minR target (PageResult.ok p2) s1 =
        Except.ok (FetchCtl.next s2) := by
      refine fetchStep_continue minR target p2 s1 l2 h2 ?_ ?_ hn2
      · rw [← hs2]
        have : s2.all_items.length = l1.length + l2.length := by
          rw [a2]; simp
        omega
      · rw [← hs2]; omega
    have e3 : fetchStep minR target (PageResult.ok p3) s2 =
        Except.ok (FetchCtl.stop s3 StopReason.targetReached) := by
      refine fetchStep_target minR target p3 s2 l3 h3 ?_
      rw [← hs3]
      have : s3.all_items.length = l1.length + l2.length + l3.length := by
        rw [a3]; simp; omega
      omega
    refine ⟨s3, ?_, r3, a3⟩
    unfold fetch_images
    rw [show (50 : Nat) = 49 + 1 from rfl,
      fetchLoop_next minR target feed 49 s0 0 s1 r0 (by rw [hf0]; exact e1)]
    rw [show (49 : Nat) = 48 + 1 from rfl,
      fetchLoop_next minR target feed 48 s1 1 s2 r1 (by rw [hf1]; exact e2)]
    rw [show (48 : Nat) = 47 + 1 from rfl]
    exact fetchLoop_stop minR target feed 47 s2 2 s3 StopReason.targetReached r2
      (by rw [hf2]; exact e3)

/-- Witness for C6: pages of four qualifying items each against a
combined target of ten reach the target on page 3 of a 50-page
ceiling. -/
theorem C6_witness :
    ∃ s', fetch_images 10 10 50
        (fun _ => PageResult.ok
          ⟨List.replicate 4 [("stats", JVal.jobj [("likeCount", JVal.jnum 100)])],
           true⟩) =
      Except.ok (s', StopReason.targetReached) ∧ s'.request_count = 3 ∧
      s'.all_items =
        (List.replicate 4 [("stats", JVal.jobj [("likeCount", JVal.jnum 100)])] ++
          List.replicate 4 [("stats", JVal.jobj [("likeCount", JVal.jnum 100)])]) ++
        List.replicate 4 [("stats", JVal.jobj [("likeCount", JVal.jnum 100)])] :=
  (C6_target_stop 10 10
    (fun _ => PageResult.ok
      ⟨List.replicate 4 [("stats", JVal.jobj [("likeCount", JVal.jnum 100)])], true⟩)
    ⟨List.replicate 4 [("stats", JVal.jobj [("likeCount", JVal.jnum 100)])], true⟩
    ⟨List.replicate 4 [("stats", JVal.jobj [("likeCount", JVal.jnum 100)])], true⟩
    ⟨List.replicate 4 [("stats", JVal.jobj [("likeCount", JVal.jnum 100)])], true⟩
    (List.replicate 4 [("stats", JVal.jobj [("likeCount", JVal.jnum 100)])])
    (List.replicate 4 [("stats", JVal.jobj [("likeCount", JVal.jnum 100)])])
    (List.replicate 4 [("stats", JVal.jobj [("likeCount", JVal.jnum 100)])])
    rfl rfl rfl rfl rfl rfl rfl rfl
    (by decide) (by decide) (by decide)).2

/-- The step of the fetch loop on a page with no items and a next
cursor: the consecutive-low-yield counter resets to zero (the low-yield
test `10 * 0 < 0` is false) and the loop either stops with
`targetReached` or continues. -/
theorem fetchStep_empty (minR : Int) (target : Nat) (s : FetchSt) :
    fetchStep minR target (PageResult.ok ⟨[], true⟩) s =
      (if target ≤ s.all_items.length then
        Except.ok (FetchCtl.stop (pageAdvance s ⟨[], true⟩ [])
          StopReason.targetReached)
       else Except.ok (FetchCtl.next (pageAdvance s ⟨[], true⟩ []))) := by
  rw [fetchStep_filtered minR target ⟨[], true⟩ s [] rfl]
  have hc : (pageAdvance s ⟨[], true⟩ []).consecutive_low_votes = 0 := by
    simp [pageAdvance]
  have ha : (pageAdvance s ⟨[], true⟩ []).all_items.length =
      s.all_items.length := by
    simp [pageAdvance]
  by_cases hA : target ≤ s.all_items.length
  · simp [ha, hc, hA]
  · simp [ha, hc, hA]

/-- The all-items list never shrinks across an empty page. -/
theorem pageAdvance_empty_all_items (s : FetchSt) :
    (pageAdvance s ⟨[], true⟩ []).all_items = s.all_items := by
  simp [pageAdvance]

/-- Claim C10: a page with zero items fails the low-yield test (0 < 0
is false), so it resets the consecutive-low-yield counter to zero;
consequently a feed of empty pages can never stop with `lowYield`, and
with a positive target and empty accumulation it runs to the page
ceiling. -/
theorem C10_empty_pages (minR : Int) (target : Nat) :
    (∀ (s : FetchSt) (hn : Bool), ∃ out,
      fetchStep minR target (PageResult.ok ⟨[], hn⟩) s = Except.ok out ∧
      (ctlState out).consecutive_low_votes = 0) ∧
    (∀ (feed : Nat → PageResult) (fuel : Nat) (s s' : FetchSt) (r : StopReason),
      (∀ k, feed k = PageResult.ok ⟨[], true⟩) →
      fetchLoop minR target feed fuel s = Except.ok (s', r) →
      r ≠ StopReason.lowYield) ∧
    (∀ (feed : Nat → PageResult) (fuel : Nat) (s : FetchSt),
      (∀ k, feed k = PageResult.ok ⟨[], true⟩) →
      s.all_items = [] → 0 < target →
      ∃ s', fetchLoop minR target feed fuel s =
        Except.ok (s', StopReason.pageCeiling)) := by
  refine ⟨?_, ?_, ?_⟩
  · intro s hn
    rw [fetchStep_filtered minR target ⟨[], hn⟩ s [] rfl]
    cases hn
    · have hc : (pageAdvance s ⟨[], false⟩ []).consecutive_low_votes = 0 := by
        simp [pageAdvance]
      by_cases hA : (pageAdvance s ⟨[], false⟩ []).all_items.length ≥ target
      · exact ⟨FetchCtl.stop (pageAdvance s ⟨[], false⟩ [])
          StopReason.targetReached, by simp [hA], hc⟩
      · exact ⟨FetchCtl.stop (pageAdvance s ⟨[], false⟩ [])
          StopReason.exhausted, by simp [hA, hc], hc⟩
    · have hc : (pageAdvance s ⟨[], true⟩ []).consecutive_low_votes = 0 := by
        simp [pageAdvance]
      by_cases hA : (pageAdvance s ⟨[], true⟩ []).all_items.length ≥ target
      · exact ⟨FetchCtl.stop (pageAdvance s ⟨[], true⟩ [])
          StopReason.targetReached, by simp [hA], hc⟩
      · exact ⟨FetchCtl.next (pageAdvance s ⟨[], true⟩ []),
          by simp [hA, hc], hc⟩
  · intro feed fuel
    induction fuel with
    | zero =>
      intro s s' r hfeed h
      simp only [fetchLoop] at h
      cases h
      intro hcontra
      cases hcontra
    | succ fuel ih =>
      intro s s' r hfeed h
      rw [fetchLoop_succ minR target feed fuel s s.request_count rfl,
        hfeed s.request_count, fetchStep_empty minR target s] at h
      by_cases hA : target ≤ s.all_items.length
      · rw [if_pos hA] at h
        simp only at h
        cases h
        intro hcontra
        cases hcontra
      · rw [if_neg hA] at h
        simp only at h
        exact ih (pageAdvance s ⟨[], true⟩ []) s' r hfeed h
  · intro feed fuel
    induction fuel with
    | zero =>
      intro s hfeed hempty hpos
      exact ⟨s, rfl⟩
    | succ fuel ih =>
      intro s hfeed hempty hpos
      have hA : ¬ target ≤ s.all_items.length := by
        rw [hempty]
        simp only [List.length_nil]
        omega
      rw [fetchLoop_succ minR target feed fuel s s.request_count rfl,
        hfeed s.request_count, fetchStep_empty minR target s, if_neg hA]
      simp only
      exact ih (pageAdvance s ⟨[], true⟩ [])  hfeed
        (by rw [pageAdvance_empty_all_items, hempty]) hpos

/-- The download loop on an exhausted item list returns the state with
no events and no crash. -/
theorem runLoop_nil (ti tv : Nat) (ck : Nat → Bool) (st : ScraperState)
    (idx : Nat) : runLoop ti tv ck st idx [] = (st, [], false) := rfl

/-- The top-of-iteration break, lines 384-387: both targets met. -/
theorem runLoop_break (ti tv : Nat) (ck : Nat → Bool) (st : ScraperState)
    (idx : Nat) (e : Entry) (rest : List Entry)
    (hi : ti ≤ st.stats.images_downloaded)
    (hv : tv ≤ st.stats.videos_downloaded) :
    runLoop ti tv ck st idx (e :: rest) = (st, [], false) := by
  simp only [runLoop]
  rw [if_pos ⟨hi, hv⟩]

/-- The uncaught `AttributeError` of `url.lower()` on a truthy
non-string url at line 390. -/
theorem runLoop_crash_url (ti tv : Nat) (ck : Nat → Bool) (st : ScraperState)
    (idx : Nat) (e : Entry) (rest : List Entry)
    (hu : urlForClassify e.item = none)
    (hnb : ¬ (ti ≤ st.stats.images_downloaded ∧
      tv ≤ st.stats.videos_downloaded)) :
    runLoop ti tv ck st idx (e :: rest) = (st, [], true) := by
  simp only [runLoop, hu]
  rw [if_neg hnb]

/-- The video quota skip, lines 391-393. -/
theorem runLoop_skip_video (ti tv : Nat) (ck : Nat → Bool) (st : ScraperState)
    (idx : Nat) (e : Entry) (rest : List Entry) (u : String)
    (hu : urlForClassify e.item = some u)
    (hnb : ¬ (ti ≤ st.stats.images_downloaded ∧
      tv ≤ st.stats.videos_downloaded))
    (hcond : is_video u e.item = true ∧ tv ≤ st.stats.videos_downloaded) :
    runLoop ti tv ck st idx (e :: rest) =
      runLoop ti tv ck
        { st with stats :=
            { st.stats with videos_skipped := st.stats.videos_skipped + 1 } }
        (idx + 1) rest := by
  simp only [runLoop, hu]
  rw [if_neg hnb, if_pos hcond]

/-- The image quota skip, lines 394-396. -/
theorem runLoop_skip_image (ti tv : Nat) (ck : Nat → Bool) (st : ScraperState)
    (idx : Nat) (e : Entry) (rest : List Entry) (u : String)
    (hu : urlForClassify e.item = some u)
    (hnb : ¬ (ti ≤ st.stats.images_downloaded ∧
      tv ≤ st.stats.videos_downloaded))
    (hnv : ¬ (is_video u e.item = true ∧ tv ≤ st.stats.videos_downloaded))
    (hcond : ¬ is_video u e.item = true ∧ ti ≤ st.stats.images_downloaded) :
    runLoop ti tv ck st idx (e :: rest) =
      runLoop ti tv ck
        { st with stats :=
            { st.stats with images_skipped := st.stats.images_skipped + 1 } }
        (idx + 1) rest := by
  simp only [runLoop, hu]
  rw [if_neg hnb, if_neg hnv, if_pos hcond]

/-- The download branch, lines 398-413, with the checkpoint block left
unresolved. -/
theorem runLoop_download (ti tv : Nat) (ck : Nat → Bool) (st : ScraperState)
    (idx : Nat) (e : Entry) (rest : List Entry) (u : String)
    (hu : urlForClassify e.item = some u)
    (hnb : ¬ (ti ≤ st.stats.images_downloaded ∧
      tv ≤ st.stats.videos_downloaded))
    (hnv : ¬ (is_video u e.item = true ∧ tv ≤ st.stats.videos_downloaded))
    (hni : ¬ (¬ is_video u e.item = true ∧ ti ≤ st.stats.images_downloaded)) :
    runLoop ti tv ck st idx (e :: rest) =
      (let dm := download_media st e.item e.netOk e.metaOk
       if idx % 50 = 0 then
         if ck idx then
           let r := runLoop ti tv ck dm.1 (idx + 1) rest
           (r.1, dm.2.1 ++ [Event.checkpointSaved idx] ++ r.2.1, r.2.2)
         else (dm.1, dm.2.1, true)
       else
         let r := runLoop ti tv ck dm.1 (idx + 1) rest
         (r.1, dm.2.1 ++ r.2.1, r.2.2)) := by
  simp only [runLoop, hu]
  rw [if_neg hnb, if_neg hnv, if_neg hni]

/-- A file-write event of `download_media` always carries the kind the
classifier assigns to the item's (string) url. -/
theorem dm_fileWritten (st : ScraperState) (item : Item) (n m : Bool)
    (k : MediaKind) (p : String)
    (hmem : Event.fileWritten k p ∈ (download_media st item n m).2.1) :
    ∃ u, jget item "url" = some (JVal.jstr u) ∧
      k = (if is_video u item then MediaKind.video else MediaKind.image) := by
  simp only [download_media] at hmem
  by_cases h1 : (!truthyOpt (jget item "url") || !truthyOpt (jget item "id")) = true
  · rw [if_pos h1] at hmem
    simp at hmem
  · rw [if_neg h1] at hmem
    by_cases h2 : pyStr ((jget item "id").getD JVal.jnull) ∈ st.downloaded_ids
    · rw [if_pos h2] at hmem
      simp at hmem
    · rw [if_neg h2] at hmem
      cases hurl : jget item "url" with
      | none =>
        rw [hurl] at hmem
        simp at hmem
      | some v =>
        rw [hurl] at hmem
        cases v with
        | jstr u =>
          refine ⟨u, rfl, ?_⟩
          cases n with
          | false => simp at hmem
          | true =>
            cases m with
            | false =>
              simp at hmem
              exact hmem.1
            | true =>
              simp at hmem
              exact hmem.1
        | jnull => simp at hmem
        | jbool b => simp at hmem
        | jnum x => simp at hmem
        | jarr xs => simp at hmem
        | jobj fs => simp at hmem

/-- The downloaded-videos counter never decreases across one
`download_media` call. -/
theorem dm_videos_le (st : ScraperState) (item : Item) (n m : Bool) :
    st.stats.videos_downloaded ≤
      (download_media st item n m).1.stats.videos_downloaded := by
  simp only [download_media]
  by_cases h1 : (!truthyOpt (jget item "url") || !truthyOpt (jget item "id")) = true
  · rw [if_pos h1]
  · rw [if_neg h1]
    by_cases h2 : pyStr ((jget item "id").getD JVal.jnull) ∈ st.downloaded_ids
    · rw [if_pos h2]
    · rw [if_neg h2]
      cases hurl : jget item "url" with
      | none => simp [bumpErrors]
      | some v =>
        cases v with
        | jstr u =>
          cases n with
          | false => simp [bumpErrors]
          | true =>
            by_cases hv : is_video u item = true
            · simp [hv, bumpDownloaded]
            · simp [hv, bumpDownloaded]
        | jnull => simp [bumpErrors]
        | jbool b => simp [bumpErrors]
        | jnum x => simp [bumpErrors]
        | jarr xs => simp [bumpErrors]
        | jobj fs => simp [bumpErrors]

/-- The downloaded-images counter never decreases across one
`download_media` call. -/
theorem dm_images_le (st : ScraperState) (item : Item) (n m : Bool) :
    st.stats.images_downloaded ≤
      (download_media st item n m).1.stats.images_downloaded := by
  simp only [download_media]
  by_cases h1 : (!truthyOpt (jget item "url") || !truthyOpt (jget item "id")) = true
  · rw [if_pos h1]
  · rw [if_neg h1]
    by_cases h2 : pyStr ((jget item "id").getD JVal.jnull) ∈ st.downloaded_ids
    · rw [if_pos h2]
    · rw [if_neg h2]
      cases hurl : jget item "url" with
      | none => simp [bumpErrors]
      | some v =>
        cases v with
        | jstr u =>
          cases n with
          | false => simp [bumpErrors]
          | true =>
            by_cases hv : is_video u item = true
            · simp [hv, bumpDownloaded]
            · simp [hv, bumpDownloaded]
        | jnull => simp [bumpErrors]
        | jbool b => simp [bumpErrors]
        | jnum x => simp [bumpErrors]
        | jarr xs => simp [bumpErrors]
        | jobj fs => simp [bumpErrors]

/-- No video file is written for an item whose run-level classification
is image. -/
theorem dm_no_video_write (st : ScraperState) (item : Item) (n m : Bool)
    (p : String) (u : String) (hu : urlForClassify item = some u)
    (hv : is_video u item = false) :
    Event.fileWritten MediaKind.video p ∉ (download_media st item n m).2.1 := by
  intro hmem
  obtain ⟨u', hjget, hk⟩ := dm_fileWritten st item n m _ p hmem
  have huu : u' = u := by
    rw [urlForClassify, hjget] at hu
    exact Option.some.inj hu
  subst huu
  rw [hv] at hk
  simp at hk

/-- No image file is written for an item whose run-level classification
is video. -/
theorem dm_no_image_write (st : ScraperState) (item : Item) (n m : Bool)
    (p : String) (u : String) (hu : urlForClassify item = some u)
    (hv : is_video u item = true) :
    Event.fileWritten MediaKind.image p ∉ (download_media st item n m).2.1 := by
  intro hmem
  obtain ⟨u', hjget, hk⟩ := dm_fileWritten st item n m _ p hmem
  have huu : u' = u := by
    rw [urlForClassify, hjget] at hu
    exact Option.some.inj hu
  subst huu
  rw [hv] at hk
  simp at hk

/-- Inversion of a positive run-level video classification. -/
theorem classifiesVideo_inv (item : Item) (h : classifiesVideo item = true) :
    ∃ u, urlForClassify item = some u ∧ is_video u item = true := by
  unfold classifiesVideo at h
  split at h
  · next u heq => exact ⟨u, heq, h⟩
  · cases h

/-- Claim C3: once a kind's downloaded counter has reached its target,
a later item of that kind is quota-skipped with no events at all — so
it is neither written to storage nor checked against the dedup ledger —
and no file of that kind is ever written for the remainder of the run
(stated for both kinds); when the remaining items are all of that kind
the whole tail produces no events and leaves the ledger untouched; and
as soon as both quotas are met the loop abandons all remaining items
immediately, returning the state unchanged with no events. -/
theorem C3_quota_enforcement (ti tv : Nat) (ck : Nat → Bool) :
    (∀ st idx (e : Entry) rest u, urlForClassify e.item = some u →
      is_video u e.item = true → tv ≤ st.stats.videos_downloaded →
      st.stats.images_downloaded < ti →
      runLoop ti tv ck st idx (e :: rest) =
        runLoop ti tv ck
          { st with stats := { st.stats with
              videos_skipped := st.stats.videos_skipped + 1 } }
          (idx + 1) rest) ∧
    (∀ st idx entries p, tv ≤ st.stats.videos_downloaded →
      Event.fileWritten MediaKind.video p ∉
        (runLoop ti tv ck st idx entries).2.1) ∧
    (∀ st idx entries p, ti ≤ st.stats.images_downloaded →
      Event.fileWritten MediaKind.image p ∉
        (runLoop ti tv ck st idx entries).2.1) ∧
    (∀ st idx entries, tv ≤ st.stats.videos_downloaded →
      (∀ e ∈ entries, classifiesVideo e.item = true) →
      (runLoop ti tv ck st idx entries).2.1 = [] ∧
      (runLoop ti tv ck st idx entries).1.downloaded_ids =
        st.downloaded_ids) ∧
    (∀ st idx entries, ti ≤ st.stats.images_downloaded →
      tv ≤ st.stats.videos_downloaded →
      runLoop ti tv ck st idx entries = (st, [], false)) := by
  refine ⟨?_, ?_, ?_, ?_, ?_⟩
  · intro st idx e rest u hu hv htv hlt
    exact runLoop_skip_video ti tv ck st idx e rest u hu
      (fun h => absurd h.1 (Nat.not_le.mpr hlt)) ⟨hv, htv⟩
  · intro st idx entries
    induction entries generalizing st idx with
    | nil =>
      intro p htv
      rw [runLoop_nil]
      simp
    | cons e rest ih =>
      intro p htv
      by_cases hb : ti ≤ st.stats.images_downloaded ∧
          tv ≤ st.stats.videos_downloaded
      · rw [runLoop_break ti tv ck st idx e rest hb.1 hb.2]
        simp
      · cases hu : urlForClassify e.item with
        | none =>
          rw [runLoop_crash_url ti tv ck st idx e rest hu hb]
          simp
        | some u =>
          by_cases hv : is_video u e.item = true ∧
              tv ≤ st.stats.videos_downloaded
          · rw [runLoop_skip_video ti tv ck st idx e rest u hu hb hv]
            exact ih _ _ p htv
          · by_cases hi : (¬ is_video u e.item = true) ∧
                ti ≤ st.stats.images_downloaded
            · rw [runLoop_skip_image ti tv ck st idx e rest u hu hb hv hi]
              exact ih _ _ p htv
            · rw [runLoop_download ti tv ck st idx e rest u hu hb hv hi]
              have hvf : is_video u e.item = false := by
                cases hbool : is_video u e.item
                · rfl
                · exact absurd ⟨hbool, htv⟩ hv
              have h1 := dm_no_video_write st e.item e.netOk e.metaOk p u hu hvf
              have h2 := ih (download_media st e.item e.netOk e.metaOk).1
                (idx + 1) p
                (le_trans htv (dm_videos_le st e.item e.netOk e.metaOk))
              by_cases hidx : idx % 50 = 0
              · cases hck : ck idx
                · simp [hidx, hck, h1, h2]
                · simp [hidx, hck, h1, h2]
              · simp [hidx, h1, h2]
  · intro st idx entries
    induction entries generalizing st idx with
    | nil =>
      intro p hti
      rw [runLoop_nil]
      simp
    | cons e rest ih =>
      intro p hti
      by_cases hb : ti ≤ st.stats.images_downloaded ∧
          tv ≤ st.stats.videos_downloaded
      · rw [runLoop_break ti tv ck st idx e rest hb.1 hb.2]
        simp
      · cases hu : urlForClassify e.item with
        | none =>
          rw [runLoop_crash_url ti tv ck st idx e rest hu hb]
          simp
        | some u =>
          by_cases hv : is_video u e.item = true ∧
              tv ≤ st.stats.videos_downloaded
          · rw [runLoop_skip_video ti tv ck st idx e rest u hu hb hv]
            exact ih _ _ p hti
          · by_cases hi : (¬ is_video u e.item = true) ∧
                ti ≤ st.stats.images_downloaded
            · rw [runLoop_skip_image ti tv ck st idx e rest u hu hb hv hi]
              exact ih _ _ p hti
            · rw [runLoop_download ti tv ck st idx e rest u hu hb hv hi]
              have hvt : is_video u e.item = true := by
                cases hbool : is_video u e.item
                · exact absurd ⟨by rw [hbool]; simp, hti⟩ hi
                · rfl
              have h1 := dm_no_image_write st e.item e.netOk e.metaOk p u hu hvt
              have h2 := ih (download_media st e.item e.netOk e.metaOk).1
                (idx + 1) p
                (le_trans hti (dm_images_le st e.item e.netOk e.metaOk))
              by_cases hidx : idx % 50 = 0
              · cases hck : ck idx
                · simp [hidx, hck, h1, h2]
                · simp [hidx, hck, h1, h2]
              · simp [hidx, h1, h2]
  · intro st idx entries
    induction entries generalizing st idx with
    | nil =>
      intro htv hall
      exact ⟨rfl, rfl⟩
    | cons e rest ih =>
      intro htv hall
      obtain ⟨u, hu, hv⟩ :=
        classifiesVideo_inv e.item (hall e (List.mem_cons_self e rest))
      by_cases hb : ti ≤ st.stats.images_downloaded ∧
          tv ≤ st.stats.videos_downloaded
      · rw [runLoop_break ti tv ck st idx e rest hb.1 hb.2]
        exact ⟨rfl, rfl⟩
      · rw [runLoop_skip_video ti tv ck st idx e rest u hu hb ⟨hv, htv⟩]
        exact ih _ _ htv (fun x hx => hall x (List.mem_cons_of_mem e hx))
  · intro st idx entries hti htv
    cases entries with
    | nil => rfl
    | cons e rest => exact runLoop_break ti tv ck st idx e rest hti htv

/-- Witness for C3: with both targets already zero, a one-item list is
abandoned untouched. -/
theorem C3_witness :
    runLoop 0 0 (fun _ => true) ⟨[], initStats⟩ 1
      [⟨[("id", JVal.jnum 7), ("url", JVal.jstr "http://x/v.mp4")],
        true, true⟩] = (⟨[], initStats⟩, [], false) :=
  (C3_quota_enforcement 0 0 (fun _ => true)).2.2.2.2 ⟨[], initStats⟩ 1
    [⟨[("id", JVal.jnum 7), ("url", JVal.jstr "http://x/v.mp4")],
      true, true⟩] (Nat.zero_le _) (Nat.zero_le _)

/-- Claim C4, counterexample to the claim as stated: with a video
target of zero and one fetched video item whose id "7" is already in
the ledger, the claim predicts outcome SkippedAlreadyHave — a
dedup-ledger check and no counter change.  The code instead takes the
quota branch first: the video skip counter is incremented and no event
at all is emitted (in particular no dedup check). -/
theorem C4_counterexample :
    (runDownloads 1 0 (fun _ => true) ["7"]
      [⟨[("id", JVal.jnum 7), ("url", JVal.jstr "http://x/v.mp4")],
        true, true⟩]).1.stats.videos_skipped = 1 ∧
    (runDownloads 1 0 (fun _ => true) ["7"]
      [⟨[("id", JVal.jnum 7), ("url", JVal.jstr "http://x/v.mp4")],
        true, true⟩]).2.1 = [] :=
  ⟨by decide, by decide⟩

/-- Claim C4 as amended: in the Download Manager the kind-quota check
precedes the dedup-ledger check.  An item whose kind quota is met is
counted as a quota skip with no ledger check even when its id is in the
ledger; only an item that passes the quota check reaches
`download_media`, where a ledger hit yields SkippedAlreadyHave — a
dedup-check event, no I/O, no counter change — and processing
continues with the next item. -/
theorem C4_amended_order (ti tv : Nat) (ck : Nat → Bool) :
    (∀ st idx (e : Entry) rest u, urlForClassify e.item = some u →
      is_video u e.item = true → tv ≤ st.stats.videos_downloaded →
      st.stats.images_downloaded < ti →
      pyStr ((jget e.item "id").getD JVal.jnull) ∈ st.downloaded_ids →
      runLoop ti tv ck st idx (e :: rest) =
        runLoop ti tv ck
          { st with stats := { st.stats with
              videos_skipped := st.stats.videos_skipped + 1 } }
          (idx + 1) rest) ∧
    (∀ st (item : Item) n m, truthyOpt (jget item "url") = true →
      truthyOpt (jget item "id") = true →
      pyStr ((jget item "id").getD JVal.jnull) ∈ st.downloaded_ids →
      download_media st item n m =
        (st, [Event.dedupChecked (pyStr ((jget item "id").getD JVal.jnull))],
         none)) ∧
    (∀ st idx (e : Entry) rest u, urlForClassify e.item = some u →
      ¬ (ti ≤ st.stats.images_downloaded ∧
        tv ≤ st.stats.videos_downloaded) →
      ¬ (is_video u e.item = true ∧ tv ≤ st.stats.videos_downloaded) →
      ¬ (¬ is_video u e.item = true ∧ ti ≤ st.stats.images_downloaded) →
      truthyOpt (jget e.item "url") = true →
      truthyOpt (jget e.item "id") = true →
      pyStr ((jget e.item "id").getD JVal.jnull) ∈ st.downloaded_ids →
      idx % 50 ≠ 0 →
      runLoop ti tv ck st idx (e :: rest) =
        ((runLoop ti tv ck st (idx + 1) rest).1,
         Event.dedupChecked (pyStr ((jget e.item "id").getD JVal.jnull)) ::
           (runLoop ti tv ck st (idx + 1) rest).2.1,
         (runLoop ti tv ck st (idx + 1) rest).2.2)) := by
  have dmdup : ∀ (st : ScraperState) (item : Item) (n m : Bool),
      truthyOpt (jget item "url") = true →
      truthyOpt (jget item "id") = true →
      pyStr ((jget item "id").getD JVal.jnull) ∈ st.downloaded_ids →
      download_media st item n m =
        (st, [Event.dedupChecked (pyStr ((jget item "id").getD JVal.jnull))],
         none) := by
    intro st item n m hurl hid hmem
    simp only [download_media]
    rw [if_neg (by simp [hurl, hid]), if_pos hmem]
  refine ⟨?_, dmdup, ?_⟩
  · intro st idx e rest u hu hv htv hlt _hmem
    exact runLoop_skip_video ti tv ck st idx e rest u hu
      (fun h => absurd h.1 (Nat.not_le.mpr hlt)) ⟨hv, htv⟩
  · intro st idx e rest u hu hb hv hi hurl hid hmem hidx
    rw [runLoop_download ti tv ck st idx e rest u hu hb hv hi,
      dmdup st e.item e.netOk e.metaOk hurl hid hmem]
    simp [hidx]

/-- Witness for C4: the amended dedup behaviour at a concrete item
whose id "7" is already in the ledger and whose quota is not met. -/
theorem C4_witness :
    download_media ⟨["7"], initStats⟩
      [("id", JVal.jnum 7), ("url", JVal.jstr "http://x/v.mp4")] true true =
      (⟨["7"], initStats⟩, [Event.dedupChecked "7"], none) :=
  (C4_amended_order 1 1 (fun _ => true)).2.1 ⟨["7"], initStats⟩
    [("id", JVal.jnum 7), ("url", JVal.jstr "http://x/v.mp4")] true true
    (by decide) (by decide) (by decide)

/-- Claim C7: a transport failure during the byte transfer of a fresh,
quota-eligible item leaves the ledger and both downloaded counters
unchanged, increments the error counter by one, writes nothing, and the
loop moves on to the remaining items without aborting. -/
theorem C7_transport_failure (ti tv : Nat) (ck : Nat → Bool)
    (st : ScraperState) (idx : Nat) (item : Item) (metaOk : Bool)
    (rest : List Entry) (u : String)
    (hurl : jget item "url" = some (JVal.jstr u)) (hune : u ≠ "")
    (hid : truthyOpt (jget item "id") = true)
    (hnew : pyStr ((jget item "id").getD JVal.jnull) ∉ st.downloaded_ids)
    (hquota : if is_video u item then st.stats.videos_downloaded < tv
      else st.stats.images_downloaded < ti)
    (hidx : idx % 50 ≠ 0) :
    download_media st item false metaOk =
      ({ st with stats := bumpErrors st.stats },
       [Event.dedupChecked (pyStr ((jget item "id").getD JVal.jnull)),
        Event.bytesRequested u], none) ∧
    (bumpErrors st.stats).images_downloaded = st.stats.images_downloaded ∧
    (bumpErrors st.stats).videos_downloaded = st.stats.videos_downloaded ∧
    (bumpErrors st.stats).errors = st.stats.errors + 1 ∧
    ({ st with stats := bumpErrors st.stats } : ScraperState).downloaded_ids =
      st.downloaded_ids ∧
    runLoop ti tv ck st idx (⟨item, false, metaOk⟩ :: rest) =
      ((runLoop ti tv ck { st with stats := bumpErrors st.stats }
          (idx + 1) rest).1,
       Event.dedupChecked (pyStr ((jget item "id").getD JVal.jnull)) ::
         Event.bytesRequested u ::
         (runLoop ti tv ck { st with stats := bumpErrors st.stats }
           (idx + 1) rest).2.1,
       (runLoop ti tv ck { st with stats := bumpErrors st.stats }
         (idx + 1) rest).2.2) := by
  have hu' : truthyOpt (jget item "url") = true := by
    rw [hurl]
    simp [truthyOpt, pyTruthy, hune]
  have hdm : download_media st item false metaOk =
      ({ st with stats := bumpErrors st.stats },
       [Event.dedupChecked (pyStr ((jget item "id").getD JVal.jnull)),
        Event.bytesRequested u], none) := by
    simp only [download_media]
    rw [if_neg (by simp [hu', hid]), if_neg hnew, hurl]
    rfl
  have hcls : urlForClassify item = some u := by
    simp [urlForClassify, hurl]
  have hb : ¬ (ti ≤ st.stats.images_downloaded ∧
      tv ≤ st.stats.videos_downloaded) := by
    intro h
    by_cases hvid : is_video u item = true
    · rw [if_pos hvid] at hquota
      omega
    · rw [if_neg hvid] at hquota
      omega
  have hv : ¬ (is_video u item = true ∧ tv ≤ st.stats.videos_downloaded) := by
    intro h
    rw [if_pos h.1] at hquota
    omega
  have hi : ¬ (¬ is_video u item = true ∧
      ti ≤ st.stats.images_downloaded) := by
    intro h
    rw [if_neg h.1] at hquota
    omega
  refine ⟨hdm, rfl, rfl, rfl, rfl, ?_⟩
  rw [runLoop_download ti tv ck st idx ⟨item, false, metaOk⟩ rest u hcls hb hv hi]
  simp [hidx, hdm]

/-- Witness for C7: a fresh image item whose transfer fails at index 1
of a run with targets 5/5. -/
theorem C7_witness :
    download_media ⟨[], initStats⟩
      [("id", JVal.jnum 3), ("url", JVal.jstr "http://x/a.png")] false true =
      (⟨[], bumpErrors initStats⟩,
       [Event.dedupChecked "3", Event.bytesRequested "http://x/a.png"],
       none) ∧
    (bumpErrors initStats).images_downloaded = initStats.images_downloaded ∧
    (bumpErrors initStats).videos_downloaded = initStats.videos_downloaded ∧
    (bumpErrors initStats).errors = initStats.errors + 1 ∧
    (⟨[], bumpErrors initStats⟩ : ScraperState).downloaded_ids =
      (⟨[], initStats⟩ : ScraperState).downloaded_ids ∧
    runLoop 5 5 (fun _ => true) ⟨[], initStats⟩ 1
      [⟨[("id", JVal.jnum 3), ("url", JVal.jstr "http://x/a.png")],
        false, true⟩] =
      ((runLoop 5 5 (fun _ => true) ⟨[], bumpErrors initStats⟩ 2 []).1,
       Event.dedupChecked "3" :: Event.bytesRequested "http://x/a.png" ::
         (runLoop 5 5 (fun _ => true) ⟨[], bumpErrors initStats⟩ 2 []).2.1,
       (runLoop 5 5 (fun _ => true) ⟨[], bumpErrors initStats⟩ 2 []).2.2) :=
  C7_transport_failure 5 5 (fun _ => true) ⟨[], initStats⟩ 1
    [("id", JVal.jnum 3), ("url", JVal.jstr "http://x/a.png")] true [] _
    rfl (by decide) (by decide) (by decide) (by decide) (by decide)

/-- Claim C9: when the byte transfer succeeds but the metadata
side-file serialization fails, the failure is only logged — no
metadata event is emitted — while the download still happens: the kind
file is written, the kind's downloaded counter is incremented, the item
id is added to the dedup ledger, and the loop continues. -/
theorem C9_metadata_failure (ti tv : Nat) (ck : Nat → Bool)
    (st : ScraperState) (idx : Nat) (item : Item) (rest : List Entry)
    (u : String)
    (hurl : jget item "url" = some (JVal.jstr u)) (hune : u ≠ "")
    (hid : truthyOpt (jget item "id") = true)
    (hnew : pyStr ((jget item "id").getD JVal.jnull) ∉ st.downloaded_ids)
    (hquota : if is_video u item then st.stats.videos_downloaded < tv
      else st.stats.images_downloaded < ti)
    (hidx : idx % 50 ≠ 0) :
    download_media st item true false =
      ({ downloaded_ids :=
           pyStr ((jget item "id").getD JVal.jnull) :: st.downloaded_ids,
         stats := bumpDownloaded st.stats
           (if is_video u item then MediaKind.video else MediaKind.image) },
       [Event.dedupChecked (pyStr ((jget item "id").getD JVal.jnull)),
        Event.bytesRequested u,
        Event.fileWritten
          (if is_video u item then MediaKind.video else MediaKind.image)
          (mediaPath (is_video u item)
            (pyStr ((jget item "id").getD JVal.jnull)) u),
        Event.ledgerAdded (pyStr ((jget item "id").getD JVal.jnull))],
       some (mediaPath (is_video u item)
         (pyStr ((jget item "id").getD JVal.jnull)) u)) ∧
    (∀ s, Event.metaWritten s ∉ (download_media st item true false).2.1) ∧
    bumpDownloaded st.stats MediaKind.video =
      { st.stats with videos_downloaded := st.stats.videos_downloaded + 1 } ∧
    bumpDownloaded st.stats MediaKind.image =
      { st.stats with images_downloaded := st.stats.images_downloaded + 1 } ∧
    runLoop ti tv ck st idx (⟨item, true, false⟩ :: rest) =
      ((runLoop ti tv ck (download_media st item true false).1
          (idx + 1) rest).1,
       (download_media st item true false).2.1 ++
         (runLoop ti tv ck (download_media st item true false).1
           (idx + 1) rest).2.1,
       (runLoop ti tv ck (download_media st item true false).1
         (idx + 1) rest).2.2) := by
  have hu' : truthyOpt (jget item "url") = true := by
    rw [hurl]
    simp [truthyOpt, pyTruthy, hune]
  have hdm : download_media st item true false =
      ({ downloaded_ids :=
           pyStr ((jget item "id").getD JVal.jnull) :: st.downloaded_ids,
         stats := bumpDownloaded st.stats
           (if is_video u item then MediaKind.video else MediaKind.image) },
       [Event.dedupChecked (pyStr ((jget item "id").getD JVal.jnull)),
        Event.bytesRequested u,
        Event.fileWritten
          (if is_video u item then MediaKind.video else MediaKind.image)
          (mediaPath (is_video u item)
            (pyStr ((jget item "id").getD JVal.jnull)) u),
        Event.ledgerAdded (pyStr ((jget item "id").getD JVal.jnull))],
       some (mediaPath (is_video u item)
         (pyStr ((jget item "id").getD JVal.jnull)) u)) := by
    simp only [download_media]
    rw [if_neg (by simp [hu', hid]), if_neg hnew, hurl]
    simp
  have hcls : urlForClassify item = some u := by
    simp [urlForClassify, hurl]
  have hb : ¬ (ti ≤ st.stats.images_downloaded ∧
      tv ≤ st.stats.videos_downloaded) := by
    intro h
    by_cases hvid : is_video u item = true
    · rw [if_pos hvid] at hquota
      omega
    · rw [if_neg hvid] at hquota
      omega
  have hv : ¬ (is_video u item = true ∧ tv ≤ st.stats.videos_downloaded) := by
    intro h
    rw [if_pos h.1] at hquota
    omega
  have hi : ¬ (¬ is_video u item = true ∧
      ti ≤ st.stats.images_downloaded) := by
    intro h
    rw [if_neg h.1] at hquota
    omega
  refine ⟨hdm, ?_, rfl, rfl, ?_⟩
  · intro s hmem
    rw [hdm] at hmem
    simp at hmem
  · rw [runLoop_download ti tv ck st idx ⟨item, true, false⟩ rest u hcls hb hv hi]
    simp [hidx]

/-- Witness for C9: a fresh image item at index 1 whose metadata
side-file write fails; the image still downloads and the ledger gains
its id. -/
theorem C9_witness :
    download_media ⟨[], initStats⟩
      [("id", JVal.jnum 3), ("url", JVal.jstr "http://x/a.png")]
      true false =
      ({ downloaded_ids := "3" :: ([] : List String),
         stats := bumpDownloaded initStats
           (if is_video "http://x/a.png"
              [("id", JVal.jnum 3), ("url", JVal.jstr "http://x/a.png")]
            then MediaKind.video else MediaKind.image) },
       [Event.dedupChecked "3", Event.bytesRequested "http://x/a.png",
        Event.fileWritten
          (if is_video "http://x/a.png"
             [("id", JVal.jnum 3), ("url", JVal.jstr "http://x/a.png")]
           then MediaKind.video else MediaKind.image)
          (mediaPath
            (is_video "http://x/a.png"
              [("id", JVal.jnum 3), ("url", JVal.jstr "http://x/a.png")])
            "3" "http://x/a.png"),
        Event.ledgerAdded "3"],
       some (mediaPath
         (is_video "http://x/a.png"
           [("id", JVal.jnum 3), ("url", JVal.jstr "http://x/a.png")])
         "3" "http://x/a.png")) :=
  (C9_metadata_failure 5 5 (fun _ => true) ⟨[], initStats⟩ 1
    [("id", JVal.jnum 3), ("url", JVal.jstr "http://x/a.png")] [] _
    rfl (by decide) (by decide) (by decide) (by decide) (by decide)).1

/-- Claim C8, counterexample to the claim as stated: a run of 51 items
(49 malformed fillers, then the downloadable items "7" and "8") with a
failing checkpoint sink.  The claim predicts the failure is logged and
the run continues.  Instead: item "7" is downloaded at index 50, the
checkpoint write raises, the run aborts (`crashed = true`) with only
the one download counted, and item "8" is never processed — its id is
absent from the ledger. -/
theorem C8_counterexample :
    (runDownloads 5 5 (fun _ => false) []
      (List.replicate 49 (⟨[], true, true⟩ : Entry) ++
        [⟨[("id", JVal.jnum 7), ("url", JVal.jstr "http://x/a.png")],
          true, true⟩,
         ⟨[("id", JVal.jnum 8), ("url", JVal.jstr "http://x/b.png")],
          true, true⟩])).2.2 = true ∧
    (runDownloads 5 5 (fun _ => false) []
      (List.replicate 49 (⟨[], true, true⟩ : Entry) ++
        [⟨[("id", JVal.jnum 7), ("url", JVal.jstr "http://x/a.png")],
          true, true⟩,
         ⟨[("id", JVal.jnum 8), ("url", JVal.jstr "http://x/b.png")],
          true, true⟩])).1.downloaded_ids = ["7"] ∧
    (runDownloads 5 5 (fun _ => false) []
      (List.replicate 49 (⟨[], true, true⟩ : Entry) ++
        [⟨[("id", JVal.jnum 7), ("url", JVal.jstr "http://x/a.png")],
          true, true⟩,
         ⟨[("id", JVal.jnum 8), ("url", JVal.jstr "http://x/b.png")],
          true, true⟩])).1.stats.images_downloaded = 1 :=
  ⟨by decide, by decide, by decide⟩

/-- Claim C8 as amended: `_save_downloaded_ids` and `_save_config` are
called without any exception handler, so a checkpoint-persistence
failure at the 50-item cadence propagates: the run aborts with the
state as of the failing item, and the remaining items are abandoned —
the loop's result does not depend on them.  There is no retry. -/
theorem C8_amended_checkpoint (ti tv : Nat) (ck : Nat → Bool)
    (st : ScraperState) (idx : Nat) (e : Entry) (rest : List Entry)
    (u : String) (hu : urlForClassify e.item = some u)
    (hb : ¬ (ti ≤ st.stats.images_downloaded ∧
      tv ≤ st.stats.videos_downloaded))
    (hv : ¬ (is_video u e.item = true ∧ tv ≤ st.stats.videos_downloaded))
    (hi : ¬ (¬ is_video u e.item = true ∧ ti ≤ st.stats.images_downloaded))
    (hidx : idx % 50 = 0) (hck : ck idx = false) :
    runLoop ti tv ck st idx (e :: rest) =
      ((download_media st e.item e.netOk e.metaOk).1,
       (download_media st e.item e.netOk e.metaOk).2.1, true) ∧
    (runLoop ti tv ck st idx (e :: rest)).2.2 = true ∧
    runLoop ti tv ck st idx (e :: rest) = runLoop ti tv ck st idx [e] := by
  have h1 : ∀ (r : List Entry), runLoop ti tv ck st idx (e :: r) =
      ((download_media st e.item e.netOk e.metaOk).1,
       (download_media st e.item e.netOk e.metaOk).2.1, true) := by
    intro r
    rw [runLoop_download ti tv ck st idx e r u hu hb hv hi]
    simp [hidx, hck]
  refine ⟨h1 rest, ?_, ?_⟩
  · rw [h1 rest]
  · rw [h1 rest, h1 []]

/-- Witness for C8: the abort equation at a concrete state standing at
index 50 with a failing checkpoint sink. -/
theorem C8_witness :
    runLoop 5 5 (fun _ => false) ⟨[], initStats⟩ 50
      [⟨[("id", JVal.jnum 7), ("url", JVal.jstr "http://x/a.png")],
        true, true⟩,
       ⟨[("id", JVal.jnum 8), ("url", JVal.jstr "http://x/b.png")],
        true, true⟩] =
      ((download_media ⟨[], initStats⟩
          [("id", JVal.jnum 7), ("url", JVal.jstr "http://x/a.png")]
          true true).1,
       (download_media ⟨[], initStats⟩
          [("id", JVal.jnum 7), ("url", JVal.jstr "http://x/a.png")]
          true true).2.1, true) :=
  (C8_amended_checkpoint 5 5 (fun _ => false) ⟨[], initStats⟩ 50
    ⟨[("id", JVal.jnum 7), ("url", JVal.jstr "http://x/a.png")],
      true, true⟩
    [⟨[("id", JVal.jnum 8), ("url", JVal.jstr "http://x/b.png")],
      true, true⟩] "http://x/a.png"
    rfl (by decide) (by decide) (by decide) (by decide) rfl).1

/-- Witness for C10: the empty-page step at a concrete state, the
no-lowYield fact on a concrete three-page run, and the page-ceiling
outcome of a concrete run. -/
theorem C10_witness :
    (∃ out, fetchStep 200 100 (PageResult.ok ⟨[], true⟩) initFetchSt =
      Except.ok out ∧ (ctlState out).consecutive_low_votes = 0) ∧
    ∃ s', fetchLoop 200 100 (fun _ => PageResult.ok ⟨[], true⟩) 3 initFetchSt =
      Except.ok (s', StopReason.pageCeiling) :=
  ⟨(C10_empty_pages 200 100).1 initFetchSt true,
   (C10_empty_pages 200 100).2.2 (fun _ => PageResult.ok ⟨[], true⟩) 3
     initFetchSt (fun _ => rfl) rfl (by decide)⟩

end Civitai
